import Mathlib

/-!
# Verification of the TradeableAI multi-model AI ensemble subsystem

Shallow embedding of the ensemble orchestrator implemented in
`server/services/investment-analysis-service.ts` (class `MultiModelAIService`)
and of the configuration module defining `AI_ENSEMBLE_CONFIG` and
`AIEnsembleConfigManager`.

Modelling conventions:
* JavaScript numbers are modelled as `ℚ` (exact rational arithmetic).  Division
  by zero yields `0` in `ℚ` where JavaScript produces `NaN`/`Infinity`; at every
  place where this matters the statement either rules the case out with a
  hypothesis or exhibits it as a counterexample (both semantics violate the
  claimed property there, only the exact junk value differs).
* Network calls (`callGeminiAPI`, `callHuggingFaceModel`) are I/O; each analyzer
  invocation and the synthesis call are therefore modelled as *oracle inputs*
  of type `Except String _` standing for the settled promise outcome.
* `Date.now() - startTime` readings are supplied as explicit `ℚ` inputs.
* JavaScript string helpers that Lean's kernel cannot evaluate
  (`toLowerCase`, `includes`) are re-implemented as executable functions on
  `Char` lists with the same semantics.
-/

/-- Executable lower-casing of one ASCII character (models the effect of
JavaScript `toLowerCase` on the ASCII inputs this service handles). -/
def charToLower (c : Char) : Char :=
  if 'A' ≤ c ∧ c ≤ 'Z' then Char.ofNat (c.toNat + 32) else c

/-- Models JavaScript `String.prototype.toLowerCase`. -/
def strToLower (s : String) : String := String.mk (s.data.map charToLower)

/-- `strStartsWith s sub` : `sub` is a prefix of `s` (on character lists). -/
def strStartsWith : List Char → List Char → Bool
  | _, [] => true
  | [], _ :: _ => false
  | c :: cs, d :: ds => c == d && strStartsWith cs ds

/-- Scan for an occurrence of `sub` anywhere in `s`. -/
def strFind : List Char → List Char → Bool
  | [], sub => sub.isEmpty
  | c :: t, sub => strStartsWith (c :: t) sub || strFind t sub

/-- Models JavaScript `String.prototype.includes`. -/
def strIncludes (s sub : String) : Bool := strFind s.data sub.data

/-- `ContainsStr s sub`: `sub` occurs as a contiguous substring of `s`
(used to state the "finalResponse contains the model's source name"
properties). -/
def ContainsStr (s sub : String) : Prop := ∃ a b, s = a ++ sub ++ b

/-- JavaScript `x || dflt` for an optional number (`undefined`, `null` and `0`
are all falsy, so `some 0` also falls back — which coincides with `0` when the
default is `0`). -/
def jsOrQ (v : Option ℚ) (dflt : ℚ) : ℚ :=
  match v with
  | some q => if q = 0 then dflt else q
  | none => dflt

/-- JavaScript `s || dflt` for an optional string (the empty string is falsy). -/
def jsOrString (v : Option String) (dflt : String) : String :=
  match v with
  | some s => if s = "" then dflt else s
  | none => dflt

/-- Models JavaScript `Array.prototype.join(sep)`. -/
def joinSep (sep : String) : List String → String
  | [] => ""
  | [x] => x
  | x :: y :: t => x ++ sep ++ joinSep sep (y :: t)

/-- The duck-typed `data` payload attached to a `ModelResponse`
(`investment-analysis-service.ts` builds a different object shape per
analyzer; the fields below are the union of the fields this verification
inspects, absent fields modelled as `none`). -/
structure AnalyzerData where
  type : String
  analysis : Option String := none
  sentiment : Option String := none
  positiveMatches : Option ℕ := none
  negativeMatches : Option ℕ := none
  metricsPriceChange : Option ℚ := none
  metricsVolume : Option ℚ := none
deriving DecidableEq, Repr

/-- `interface ModelResponse` (investment-analysis-service.ts:900). -/
structure ModelResponse where
  source : String
  confidence : ℚ
  data : AnalyzerData
  processingTime : ℚ
deriving DecidableEq, Repr

/-- `interface EnsembleResponse` (investment-analysis-service.ts:907). -/
structure EnsembleResponse where
  finalResponse : String
  modelContributions : List ModelResponse
  consensusScore : ℚ
  totalProcessingTime : ℚ
  methodology : String
deriving DecidableEq, Repr

/-- `calculateAverageConfidence`-style total confidence helper used by the
weighting code: `responses.reduce((sum, r) => sum + r.confidence, 0)`. -/
def totalConfidence (responses : List ModelResponse) : ℚ :=
  (responses.map (fun r => r.confidence)).sum

/-- `MultiModelAIService.calculateConsensusScore`
(investment-analysis-service.ts:1433).
`Math.pow(x, 2)` is `x ^ 2`; `Math.max`/`Math.min` are `max`/`min`. -/
def calculateConsensusScore (responses : List ModelResponse) : ℚ :=
  if responses.length < 2 then 0.5
  else
    let avgConfidence := totalConfidence responses / (responses.length : ℚ)
    let confidenceVariance :=
      (responses.map (fun r => (r.confidence - avgConfidence) ^ 2)).sum /
        (responses.length : ℚ)
    max 0.1 (min 0.95 (1 - confidenceVariance))

/-- `MultiModelAIService.calculateModelWeights`
(investment-analysis-service.ts:1447).  The `"performance"` case of the
source's `switch` literally re-invokes the function with `"confidence"`;
the `"equal"` case and the `default` case share one body. -/
def calculateModelWeights (responses : List ModelResponse) (strategy : String) :
    List ℚ :=
  if strategy = "confidence" then
    let totalConf := totalConfidence responses
    responses.map (fun r => r.confidence / totalConf)
  else if strategy = "performance" then
    calculateModelWeights responses "confidence"
  else
    let equalWeight := 1 / (responses.length : ℚ)
    List.replicate responses.length equalWeight
termination_by (if strategy = "performance" then 1 else 0)
decreasing_by simp_all

/-- `MultiModelAIService.explainMethodology`
(investment-analysis-service.ts:1469). -/
def explainMethodology (responses : List ModelResponse) (strategy : String) :
    String :=
  let modelList := joinSep ", " (responses.map (fun r => r.source))
  "Used " ++ toString responses.length ++ " AI models (" ++ modelList ++
    ") with " ++ strategy ++
    " weighting strategy. Consensus score indicates model agreement level."

/-- Models `JSON.stringify(value, null, 2)` applied to an analyzer payload in
`fallbackSynthesis`.  The exact JSON layout is not load-bearing for any claim
(only non-emptiness of the surrounding synthesis and the presence of source
names elsewhere in the string are), so the rendering is a simple faithful
listing of the payload's fields. -/
def jsonStringifyData (d : AnalyzerData) : String :=
  "type: " ++ d.type ++
    (match d.analysis with | some a => ", analysis: " ++ a | none => "") ++
    (match d.sentiment with | some s => ", sentiment: " ++ s | none => "")

/-- Models `JSON.stringify` of a plain string (`"..."`). -/
def jsonStringifyString (a : String) : String := "\"" ++ a ++ "\""

/-- `primaryResponse.data.analysis || primaryResponse.data` stringified
(fallbackSynthesis, line 1574): a present non-empty `analysis` string is
stringified, otherwise the whole payload object is. -/
def stringifyAnalysisOrData (d : AnalyzerData) : String :=
  match d.analysis with
  | some a => if a = "" then jsonStringifyData d else jsonStringifyString a
  | none => jsonStringifyData d

/-- The primary-response selection of `fallbackSynthesis`
(investment-analysis-service.ts:1569-1570):
`const highConfidenceResponses = responses.filter(r => r.confidence > 0.7);`
`const primaryResponse = highConfidenceResponses[0] || responses[0];`
Returns `none` only for the empty list. -/
def fallbackPrimary : List ModelResponse → Option ModelResponse
  | [] => none
  | r0 :: rest =>
    some ((((r0 :: rest).filter (fun r => r.confidence > 0.7)).head?).getD r0)

/-- Models `(x * 100).toFixed(1)`-style decimal rendering used inside the
fallback synthesis text.  The numeric formatting is not load-bearing for any
claim; this renders the rational rounded down to one decimal place. -/
def toFixed1 (q : ℚ) : String :=
  let n : ℤ := ⌊q * 10⌋
  toString (n / 10) ++ "." ++ toString (n % 10)

/-- `MultiModelAIService.fallbackSynthesis`
(investment-analysis-service.ts:1564). -/
def fallbackSynthesis (responses : List ModelResponse) (_query : String) :
    String :=
  match responses with
  | [] => "Unable to provide analysis at this time."
  | r0 :: rest =>
    let primaryResponse := (fallbackPrimary (r0 :: rest)).getD r0
    let responses := r0 :: rest
    "Based on multi-model AI analysis:\n\n" ++
      ("Primary Analysis (" ++ primaryResponse.source ++ "):\n") ++
      (stringifyAnalysisOrData primaryResponse.data ++ "\n\n") ++
      (if responses.length > 1 then
        "Supporting insights from " ++ toString (responses.length - 1) ++
          " additional models:\n" ++
          String.join ((responses.drop 1).map
            (fun r => "- " ++ r.source ++ ": " ++ r.data.type ++ "\n"))
      else "") ++
      ("\nConfidence: " ++ toFixed1 (primaryResponse.confidence * 100) ++ "%") ++
      ("\nModels consulted: " ++
        joinSep ", " (responses.map (fun r => r.source))) ++
      "\n\n💡 Remember: This is a learning tool to help you understand trading better!"

/-- `MultiModelAIService.synthesizeResponses`
(investment-analysis-service.ts:1318).  The synthesis prompt string is built
only to be sent to `callGeminiAPI`; since that network call is modelled by the
`geminiResult` oracle input, the prompt construction is elided.  The
`catch` around `callGeminiAPI` maps failure to `fallbackSynthesis`. -/
def synthesizeResponses (responses : List ModelResponse)
    (originalQuery : String) (_strategy : String)
    (geminiResult : Except String String) : String :=
  if responses.length = 0 then
    "I apologize, but I couldn't generate a comprehensive analysis due to technical difficulties. Please try again."
  else
    match geminiResult with
    | Except.ok s => s
    | Except.error _ => fallbackSynthesis responses originalQuery

/-- Crypto slang lexicon, positive side (investment-analysis-service.ts:1482). -/
def cryptoPositive : List String :=
  ["moon", "hodl", "bullish", "pump", "rally", "breakout"]

/-- Crypto slang lexicon, negative side (investment-analysis-service.ts:1490). -/
def cryptoNegative : List String :=
  ["dump", "crash", "bearish", "rekt", "fud", "dip"]

/-- `MultiModelAIService.getCryptoKeywordAnalysis`
(investment-analysis-service.ts:1477): the local keyword fallback of the
crypto-sentiment analyzer.  The source's `context` parameter is unused by its
body and is omitted; `now - startTime` stands for `Date.now() - startTime`. -/
def getCryptoKeywordAnalysis (query : String) (now startTime : ℚ) :
    ModelResponse :=
  let lowerQuery := strToLower query
  let positiveMatches :=
    (cryptoPositive.filter (fun word => strIncludes lowerQuery word)).length
  let negativeMatches :=
    (cryptoNegative.filter (fun word => strIncludes lowerQuery word)).length
  let sc : String × ℚ :=
    if positiveMatches > negativeMatches then
      ("positive", min 0.8 (0.5 + (positiveMatches : ℚ) * 0.1))
    else if negativeMatches > positiveMatches then
      ("negative", min 0.8 (0.5 + (negativeMatches : ℚ) * 0.1))
    else
      ("neutral", 0.5)
  { source := "Crypto-Keywords"
    confidence := sc.2
    data :=
      { type := "crypto_keyword_analysis"
        sentiment := some sc.1
        positiveMatches := some positiveMatches
        negativeMatches := some negativeMatches }
    processingTime := now - startTime }

/-- The technical-data object handed to the rule-based technical fallback
(`context.topCoin || context.coins?.[0]`); only the fields its body reads are
modelled, absent JavaScript properties are `none`. -/
structure TechnicalData where
  name : Option String := none
  priceChange24h : Option ℚ := none
  volume24h : Option ℚ := none
deriving DecidableEq, Repr

/-- `MultiModelAIService.getRuleBasedTechnicalAnalysis`
(investment-analysis-service.ts:1524): the rule-based fallback of the
technical-pattern analyzer.  `data.priceChange24h || 0` and
`data.volume24h || 0` are JavaScript truthiness defaults (`jsOrQ`);
`data.name || "Asset"` likewise (`jsOrString`). -/
def getRuleBasedTechnicalAnalysis (data : TechnicalData) (_query : String)
    (now startTime : ℚ) : ModelResponse :=
  let priceChange := jsOrQ data.priceChange24h 0
  let volume := jsOrQ data.volume24h 0
  let analysis :=
    ("Technical Analysis for " ++ jsOrString data.name "Asset" ++ ":\n") ++
      (if priceChange > 5 then "- Strong bullish momentum detected\n"
       else if priceChange > 2 then "- Moderate upward movement\n"
       else if priceChange < -5 then "- Strong bearish pressure\n"
       else if priceChange < -2 then "- Moderate downward pressure\n"
       else "- Sideways price action\n") ++
      (if volume > 100000000 then
        "- High trading volume indicates strong interest\n"
       else "- Normal trading volume\n")
  { source := "Rule-Based-Technical"
    confidence := 0.6
    data :=
      { type := "rule_based_technical"
        analysis := some analysis
        metricsPriceChange := some priceChange
        metricsVolume := some volume }
    processingTime := now - startTime }

/-- The `options` parameter of `generateEnsembleResponse`
(investment-analysis-service.ts:938); the structure defaults mirror the
destructuring defaults at line 954. -/
structure EnsembleOptions where
  useGemini : Bool := true
  useFinancialBert : Bool := true
  useCryptoBert : Bool := true
  useNewsAnalysis : Bool := true
  weightingStrategy : String := "confidence"
deriving DecidableEq, Repr

/-- The settled outcome of one analyzer promise (`Promise.allSettled` slot):
`Except.ok` = fulfilled with a `ModelResponse`, `Except.error` = rejected. -/
abbrev AnalyzerOutcome := Except String ModelResponse

/-- The `modelPromises` array built at investment-analysis-service.ts:970-997:
each analyzer family is dispatched iff its option flag is set, and the
technical-pattern analyzer is always dispatched.  The five `AnalyzerOutcome`
inputs are the oracle outcomes of those calls. -/
def dispatched (opts : EnsembleOptions)
    (geminiR finbertR cryptoR newsR techR : AnalyzerOutcome) :
    List AnalyzerOutcome :=
  (if opts.useGemini then [geminiR] else []) ++
    (if opts.useFinancialBert then [finbertR] else []) ++
    (if opts.useCryptoBert then [cryptoR] else []) ++
    (if opts.useNewsAnalysis then [newsR] else []) ++
    [techR]

/-- The fulfilled results, in settlement order (the `results.forEach` loop at
investment-analysis-service.ts:1004 pushes fulfilled values in order). -/
def fulfilledResponses (results : List AnalyzerOutcome) : List ModelResponse :=
  results.filterMap Except.toOption

/-- The `try`-block body of `generateEnsembleResponse`
(investment-analysis-service.ts:949-1066), as an `Except`:
`Except.error` is a thrown error reaching the enclosing `catch`.  The only
`throw` that can actually reach the `catch` is the missing-API-key check at
line 950 (everything after `Promise.allSettled` is non-throwing). -/
def ensembleBody (apiKey : String) (query : String) (opts : EnsembleOptions)
    (geminiR finbertR cryptoR newsR techR : AnalyzerOutcome)
    (synthResult : Except String String) (elapsed : ℚ) :
    Except String EnsembleResponse :=
  if apiKey = "" then Except.error "HUGGINGFACE_API_KEY is not configured"
  else
    let results := dispatched opts geminiR finbertR cryptoR newsR techR
    let modelResponses := fulfilledResponses results
    if modelResponses = [] then
      Except.ok
        { finalResponse :=
            "I apologize, but I couldn't generate a comprehensive analysis due to technical difficulties. Please try again."
          modelContributions := []
          consensusScore := 0
          totalProcessingTime := elapsed
          methodology := "No models were able to generate a response" }
    else
      Except.ok
        { finalResponse :=
            synthesizeResponses modelResponses query opts.weightingStrategy
              synthResult
          modelContributions := modelResponses
          consensusScore := calculateConsensusScore modelResponses
          totalProcessingTime := elapsed
          methodology := explainMethodology modelResponses
            opts.weightingStrategy }

/-- `MultiModelAIService.generateEnsembleResponse`
(investment-analysis-service.ts:935): the `try` body wrapped in the
`catch` at line 1067, which converts any thrown error into a degraded
`EnsembleResponse` (at the one reachable throw point `modelResponses` is
still empty, so the caught branch's `modelContributions` is `[]`).
The function therefore always *returns*; it never rejects. -/
def generateEnsembleResponse (apiKey : String) (query : String)
    (opts : EnsembleOptions)
    (geminiR finbertR cryptoR newsR techR : AnalyzerOutcome)
    (synthResult : Except String String) (elapsed : ℚ) : EnsembleResponse :=
  match ensembleBody apiKey query opts geminiR finbertR cryptoR newsR techR
      synthResult elapsed with
  | Except.ok r => r
  | Except.error e =>
    { finalResponse := "Analysis failed: " ++ e ++ ". Please try again."
      modelContributions := []
      consensusScore := 0
      totalProcessingTime := elapsed
      methodology := "Analysis failed due to technical error" }

/-- One entry of `AI_ENSEMBLE_CONFIG.models` (ai-ensemble-config module,
`interface AIModelConfig`); the static fields this verification inspects. -/
structure AIModelConfig where
  name : String
  enabled : Bool
  weight : ℚ
  timeout : ℚ
  costPerRequest : ℚ
  minimumConfidenceThreshold : ℚ
deriving DecidableEq, Repr

/-- The static `AI_ENSEMBLE_CONFIG.models` table, keyed by model key
(`gemini`, `finbert`, `cryptobert`, `newsRoberta`, `technicalAnalyzer`);
`none` models JavaScript's `undefined` for an absent key. -/
def ensembleModels (key : String) : Option AIModelConfig :=
  if key = "gemini" then
    some { name := "Gemini-2.0-Flash", enabled := true, weight := 1.0,
           timeout := 30000, costPerRequest := 0.02,
           minimumConfidenceThreshold := 0.7 }
  else if key = "finbert" then
    some { name := "FinBERT", enabled := true, weight := 0.8,
           timeout := 15000, costPerRequest := 0.001,
           minimumConfidenceThreshold := 0.6 }
  else if key = "cryptobert" then
    some { name := "CryptoBERT", enabled := true, weight := 0.7,
           timeout := 12000, costPerRequest := 0.0015,
           minimumConfidenceThreshold := 0.65 }
  else if key = "newsRoberta" then
    some { name := "News-RoBERTa", enabled := true, weight := 0.6,
           timeout := 10000, costPerRequest := 0.0008,
           minimumConfidenceThreshold := 0.6 }
  else if key = "technicalAnalyzer" then
    some { name := "Technical-Analyzer", enabled := true, weight := 0.7,
           timeout := 8000, costPerRequest := 0.0005,
           minimumConfidenceThreshold := 0.65 }
  else none

/-- `AI_ENSEMBLE_CONFIG.strategies.confidence.weightingFunction`. -/
def confidenceWeighting (responses : List ModelResponse) : List ℚ :=
  let totalConf := totalConfidence responses
  responses.map (fun r => r.confidence / totalConf)

/-- `AI_ENSEMBLE_CONFIG.strategies.equal.weightingFunction`. -/
def equalWeighting (responses : List ModelResponse) : List ℚ :=
  let equalWeight := 1 / (responses.length : ℚ)
  List.replicate responses.length equalWeight

/-- The historical-accuracy lookup of
`AI_ENSEMBLE_CONFIG.strategies.performance.weightingFunction`
(`switch (r.source)`, default 0.6). -/
def performanceScore (source : String) : ℚ :=
  if source = "Gemini-2.0-Flash" then 0.85
  else if source = "FinBERT" then 0.78
  else if source = "CryptoBERT" then 0.72
  else if source = "News-RoBERTa" then 0.76
  else if source = "Technical-Analyzer" then 0.7
  else 0.6

/-- `AI_ENSEMBLE_CONFIG.strategies.performance.weightingFunction`. -/
def performanceWeighting (responses : List ModelResponse) : List ℚ :=
  let performanceScores := responses.map (fun r => performanceScore r.source)
  let totalPerformance := performanceScores.sum
  performanceScores.map (fun score => score / totalPerformance)

/-- `AI_ENSEMBLE_CONFIG.strategies.adaptive.weightingFunction` (the same
confidence-proportional formula, written inline in the source). -/
def adaptiveWeighting (responses : List ModelResponse) : List ℚ :=
  responses.map (fun r => r.confidence / totalConfidence responses)

/-- `AI_ENSEMBLE_CONFIG.strategies.fastResponse.weightingFunction`:
`1 / (r.processingTime / 1000)`, normalized. -/
def fastResponseWeighting (responses : List ModelResponse) : List ℚ :=
  let speedScores := responses.map (fun r => 1 / (r.processingTime / 1000))
  let totalSpeed := speedScores.sum
  speedScores.map (fun score => score / totalSpeed)

/-- `AI_ENSEMBLE_CONFIG.strategies.highAccuracy.weightingFunction`:
`r.confidence * 0.7 + (1 - |r.confidence - avgConfidence|) * 0.3`,
normalized (the source recomputes `avgConfidence` inside the map; it is the
same value for every element). -/
def highAccuracyWeighting (responses : List ModelResponse) : List ℚ :=
  let consensusBonus := responses.map (fun r =>
    let avgConfidence := totalConfidence responses / (responses.length : ℚ)
    let consensusScore := 1 - |r.confidence - avgConfidence|
    r.confidence * 0.7 + consensusScore * 0.3)
  let total := consensusBonus.sum
  consensusBonus.map (fun score => score / total)

/-- The `queryAnalysis` argument of
`AIEnsembleConfigManager.getOptimalConfiguration`. -/
structure QueryAnalysis where
  isTechnicalQuery : Bool
  isSentimentQuery : Bool
  isEducationalQuery : Bool
  complexity : String
  urgency : String
deriving DecidableEq, Repr

/-- The result record of `getOptimalConfiguration`. -/
structure OptimalConfiguration where
  enabledModels : List String
  strategy : String
  timeout : ℚ
  expectedCost : ℚ
deriving DecidableEq, Repr

/-- The per-key cost used in the `expectedCost` reduce:
`model ? model.costPerRequest : 0`. -/
def modelCost (key : String) : ℚ :=
  match ensembleModels key with
  | some m => m.costPerRequest
  | none => 0

/-- `AIEnsembleConfigManager.getOptimalConfiguration` (ai-ensemble-config
module, lines 387-440), over the static `AI_ENSEMBLE_CONFIG`
(`defaultStrategy = "confidence"`, `globalSettings.globalTimeout = 60000`).
Note the source computes `expectedCost` over the *unfiltered* candidate list
and only filters `enabledModels` by the `enabled` flag in the returned
record. -/
def getOptimalConfiguration (qa : QueryAnalysis) : OptimalConfiguration :=
  let enabledModels : List String := ["gemini"]
  let strategy := "confidence"
  let timeout : ℚ := 60000
  let enabledModels :=
    if qa.isSentimentQuery then
      enabledModels ++ ["finbert", "cryptobert", "newsRoberta"]
    else enabledModels
  let enabledModels :=
    if qa.isTechnicalQuery then enabledModels ++ ["technicalAnalyzer", "finbert"]
    else enabledModels
  let enabledModels :=
    if qa.isEducationalQuery then enabledModels ++ ["finbert"] else enabledModels
  let strategy := if qa.isEducationalQuery then "confidence" else strategy
  let enabledModels :=
    if qa.urgency = "high" then enabledModels.take 2 else enabledModels
  let strategy :=
    if qa.urgency = "high" then "fastResponse"
    else if qa.complexity = "high" then "highAccuracy" else strategy
  let timeout :=
    if qa.urgency = "high" then 15000
    else if qa.complexity = "high" then 60000 else timeout
  let expectedCost := (enabledModels.map modelCost).sum
  { enabledModels :=
      enabledModels.filter
        (fun key => ((ensembleModels key).map AIModelConfig.enabled).getD false)
    strategy := strategy
    timeout := timeout
    expectedCost := expectedCost }

/-! ## Shared helper lemmas -/

theorem sum_map_div (l : List ℚ) (d : ℚ) :
    (l.map (fun x => x / d)).sum = l.sum / d := by
  induction l with
  | nil => simp
  | cons x t ih => simp [ih, add_div]

theorem sum_map_affine (l : List ℚ) (a b : ℚ) :
    (l.map (fun x => a + b * x)).sum = l.length * a + b * l.sum := by
  induction l with
  | nil => simp
  | cons x t ih =>
    simp only [List.map_cons, List.sum_cons, List.length_cons, ih]
    push_cast
    ring

theorem sum_map_le_sum_map {α : Type} (l : List α) (f g : α → ℚ)
    (h : ∀ x ∈ l, f x ≤ g x) : (l.map f).sum ≤ (l.map g).sum := by
  induction l with
  | nil => simp
  | cons x t ih =>
    simp only [List.map_cons, List.sum_cons]
    have hx := h x (List.mem_cons_self x t)
    have ht := ih (fun y hy => h y (List.mem_cons_of_mem x hy))
    linarith

theorem containsStr_mid (a sub b : String) : ContainsStr (a ++ sub ++ b) sub :=
  ⟨a, b, rfl⟩

theorem containsStr_append_right {s sub : String} (h : ContainsStr s sub)
    (t : String) : ContainsStr (s ++ t) sub := by
  obtain ⟨a, b, rfl⟩ := h
  exact ⟨a, b ++ t, by rw [String.append_assoc (a ++ sub) b t]⟩

theorem containsStr_append_left {s sub : String} (t : String)
    (h : ContainsStr s sub) : ContainsStr (t ++ s) sub := by
  obtain ⟨a, b, rfl⟩ := h
  exact ⟨t ++ a, b, by rw [String.append_assoc t a sub, String.append_assoc t (a ++ sub) b]⟩

theorem containsStr_refl (s : String) : ContainsStr s s :=
  ⟨"", "", by rw [String.empty_append, String.append_empty]⟩

theorem containsStr_ne_empty {s sub : String} (h : ContainsStr s sub)
    (hsub : sub ≠ "") : s ≠ "" := by
  obtain ⟨a, b, rfl⟩ := h
  intro hcon
  apply hsub
  have hlen : (a ++ sub ++ b).length = 0 := by rw [hcon]; rfl
  rw [String.length_append, String.length_append] at hlen
  have : sub.length = 0 := by omega
  exact String.ext (List.length_eq_zero.mp this)

theorem containsStr_joinSep {l : List String} {x : String} (h : x ∈ l)
    (sep : String) : ContainsStr (joinSep sep l) x := by
  induction l with
  | nil => cases h
  | cons y t ih =>
    cases h with
    | head =>
      cases t with
      | nil => exact containsStr_refl x
      | cons z zs =>
        show ContainsStr (x ++ sep ++ joinSep sep (z :: zs)) x
        exact containsStr_append_right
          (containsStr_append_right (containsStr_refl x) sep) _
    | tail _ hm =>
      cases t with
      | nil => cases hm
      | cons z zs =>
        show ContainsStr (y ++ sep ++ joinSep sep (z :: zs)) x
        exact containsStr_append_left _ (ih hm)

theorem mem_fulfilledResponses {l : List AnalyzerOutcome} {r : ModelResponse} :
    r ∈ fulfilledResponses l ↔ Except.ok r ∈ l := by
  simp only [fulfilledResponses, List.mem_filterMap]
  constructor
  · rintro ⟨a, ha, h⟩
    cases a with
    | ok v => simp [Except.toOption] at h; subst h; exact ha
    | error e => simp [Except.toOption] at h
  · intro h
    exact ⟨Except.ok r, h, rfl⟩

theorem fulfilledResponses_eq_nil {l : List AnalyzerOutcome}
    (h : ∀ x ∈ l, ∃ e, x = Except.error e) : fulfilledResponses l = [] := by
  induction l with
  | nil => rfl
  | cons x t ih =>
    obtain ⟨e, rfl⟩ := h x (List.mem_cons_self x t)
    simpa [fulfilledResponses, Except.toOption] using
      ih (fun y hy => h y (List.mem_cons_of_mem _ hy))

/-! ## Claim theorems -/

/-- C7: the crypto-sentiment analyzer's local keyword fallback, applied to the
query "to the moon, hodl strong" (2 positive lexicon hits, 0 negative),
returns sentiment "positive" with confidence strictly greater than 0.5 and at
most 0.8; and for every input the fallback's confidence never exceeds 0.8. -/
theorem crypto_keyword_fallback_properties :
    (∀ now startTime : ℚ,
      (getCryptoKeywordAnalysis "to the moon, hodl strong" now
          startTime).data.sentiment = some "positive" ∧
      0.5 < (getCryptoKeywordAnalysis "to the moon, hodl strong" now
          startTime).confidence ∧
      (getCryptoKeywordAnalysis "to the moon, hodl strong" now
          startTime).confidence ≤ 0.8) ∧
    ∀ (q : String) (now startTime : ℚ),
      (getCryptoKeywordAnalysis q now startTime).confidence ≤ 0.8 := by
  constructor
  · intro now startTime
    have hp : (cryptoPositive.filter
        (fun word => strIncludes (strToLower "to the moon, hodl strong") word)).length = 2 := by
      decide
    have hn : (cryptoNegative.filter
        (fun word => strIncludes (strToLower "to the moon, hodl strong") word)).length = 0 := by
      decide
    simp only [getCryptoKeywordAnalysis, hp, hn]
    norm_num
  · intro q now startTime
    simp only [getCryptoKeywordAnalysis]
    split_ifs
    · exact min_le_left _ _
    · exact min_le_left _ _
    · norm_num

/-- C8: in the technical-pattern analyzer's rule-based fallback, a context
whose asset has `priceChange24h = 7.5` is classified as strong bullish,
`priceChange24h = -1` is classified as sideways price action, and the
returned confidence is exactly 0.6 in every rule-based-fallback case. -/
theorem rule_based_technical_classification :
    ∀ (d : TechnicalData) (q : String) (now startTime : ℚ),
      (d.priceChange24h = some 7.5 →
        ContainsStr
          (((getRuleBasedTechnicalAnalysis d q now startTime).data.analysis).getD "")
          "- Strong bullish momentum detected\n") ∧
      (d.priceChange24h = some (-1) →
        ContainsStr
          (((getRuleBasedTechnicalAnalysis d q now startTime).data.analysis).getD "")
          "- Sideways price action\n") ∧
      (getRuleBasedTechnicalAnalysis d q now startTime).confidence = 0.6 := by
  intro d q now startTime
  refine ⟨?_, ?_, rfl⟩
  · intro hpc
    simp only [getRuleBasedTechnicalAnalysis, hpc, jsOrQ]
    norm_num
    exact containsStr_append_right
      (containsStr_append_left _ (containsStr_refl _)) _
  · intro hpc
    simp only [getRuleBasedTechnicalAnalysis, hpc, jsOrQ]
    norm_num
    exact containsStr_append_right
      (containsStr_append_left _ (containsStr_refl _)) _

/-- C8 witness: the two classification hypotheses discharged at concrete
technical data records. -/
theorem rule_based_technical_classification_witness :
    ContainsStr
      (((getRuleBasedTechnicalAnalysis { priceChange24h := some 7.5 } "q" 10 0).data.analysis).getD "")
      "- Strong bullish momentum detected\n" ∧
    ContainsStr
      (((getRuleBasedTechnicalAnalysis { priceChange24h := some (-1) } "q" 10 0).data.analysis).getD "")
      "- Sideways price action\n" ∧
    (getRuleBasedTechnicalAnalysis { priceChange24h := some 7.5 } "q" 10 0).confidence = 0.6 := by
  have h1 := rule_based_technical_classification { priceChange24h := some 7.5 } "q" 10 0
  have h2 := rule_based_technical_classification { priceChange24h := some (-1) } "q" 10 0
  exact ⟨h1.1 rfl, h2.2.1 rfl, h1.2.2⟩

theorem sum_map_const {α : Type} (l : List α) (c : ℚ) :
    (l.map (fun _ => c)).sum = l.length * c := by
  induction l with
  | nil => simp
  | cons x t ih => simp [ih]; ring

theorem sum_map_div_of {α : Type} (l : List α) (f : α → ℚ) (d : ℚ) :
    (l.map (fun r => f r / d)).sum = (l.map f).sum / d := by
  have := sum_map_div (l.map f) d
  rwa [List.map_map, Function.comp_def] at this

theorem normalized_map_sum {α : Type} (l : List α) (f : α → ℚ)
    (h : (l.map f).sum ≠ 0) : (l.map (fun r => f r / (l.map f).sum)).sum = 1 := by
  rw [sum_map_div_of, div_self h]

/-- C10: the engine's `calculateModelWeights` with strategy `"performance"`
returns exactly the confidence weighting (the `switch` aliases `"performance"`
to `"confidence"`), and the historical-accuracy lookup-table weighting of the
configuration module's `performance` strategy is a different function. -/
theorem engine_performance_aliases_confidence :
    (∀ rs : List ModelResponse, rs ≠ [] →
      calculateModelWeights rs "performance" = calculateModelWeights rs "confidence") ∧
    ∃ rs : List ModelResponse, rs ≠ [] ∧
      performanceWeighting rs ≠ calculateModelWeights rs "performance" := by
  constructor
  · intro rs _
    rw [calculateModelWeights]
    simp
  · refine ⟨[{ source := "Gemini-2.0-Flash", confidence := 0.5,
               data := { type := "comprehensive_analysis" }, processingTime := 10 },
             { source := "FinBERT", confidence := 0.5,
               data := { type := "financial_sentiment" }, processingTime := 20 }],
      by simp, ?_⟩
    have h1 : calculateModelWeights
        [{ source := "Gemini-2.0-Flash", confidence := 0.5,
           data := { type := "comprehensive_analysis" }, processingTime := 10 },
         { source := "FinBERT", confidence := 0.5,
           data := { type := "financial_sentiment" }, processingTime := 20 }]
        "performance" =
        calculateModelWeights
          [{ source := "Gemini-2.0-Flash", confidence := 0.5,
             data := { type := "comprehensive_analysis" }, processingTime := 10 },
           { source := "FinBERT", confidence := 0.5,
             data := { type := "financial_sentiment" }, processingTime := 20 }]
          "confidence" := by
      rw [calculateModelWeights]; simp
    have h2 : calculateModelWeights
        [{ source := "Gemini-2.0-Flash", confidence := 0.5,
           data := { type := "comprehensive_analysis" }, processingTime := 10 },
         { source := "FinBERT", confidence := 0.5,
           data := { type := "financial_sentiment" }, processingTime := 20 }]
        "confidence" = [1 / 2, 1 / 2] := by
      rw [calculateModelWeights]
      norm_num [totalConfidence]
    have hne : ("FinBERT" : String) ≠ "Gemini-2.0-Flash" := by decide
    have h3 : performanceWeighting
        [{ source := "Gemini-2.0-Flash", confidence := 0.5,
           data := { type := "comprehensive_analysis" }, processingTime := 10 },
         { source := "FinBERT", confidence := 0.5,
           data := { type := "financial_sentiment" }, processingTime := 20 }] =
        [85 / 163, 78 / 163] := by
      norm_num [performanceWeighting, performanceScore, hne]
    rw [h1, h2, h3]
    norm_num

/-- C10 witness: the alias equation instantiated at a concrete singleton
response list. -/
theorem engine_performance_aliases_confidence_witness :
    calculateModelWeights
        [{ source := "FinBERT", confidence := 0.8,
           data := { type := "financial_sentiment" }, processingTime := 10 }]
        "performance" =
      calculateModelWeights
        [{ source := "FinBERT", confidence := 0.8,
           data := { type := "financial_sentiment" }, processingTime := 10 }]
        "confidence" :=
  engine_performance_aliases_confidence.1 _ (by simp)

theorem highAccuracy_scores_sum_pos (rs : List ModelResponse) (hne : rs ≠ [])
    (hconf : ∀ r ∈ rs, 0 ≤ r.confidence ∧ r.confidence ≤ 1) :
    0 < (rs.map (fun r =>
      r.confidence * 0.7 +
        (1 - |r.confidence - totalConfidence rs / (rs.length : ℚ)|) * 0.3)).sum := by
  have hn : (0 : ℚ) < (rs.length : ℚ) := by
    exact_mod_cast List.length_pos.mpr hne
  have hS0 : 0 ≤ totalConfidence rs := by
    apply List.sum_nonneg
    intro x hx
    rw [List.mem_map] at hx
    obtain ⟨r, hr, rfl⟩ := hx
    exact (hconf r hr).1
  have hSn : totalConfidence rs ≤ (rs.length : ℚ) := by
    have h := sum_map_le_sum_map rs (fun r => r.confidence) (fun _ => (1 : ℚ))
      (fun r hr => (hconf r hr).2)
    rw [sum_map_const] at h
    simpa [totalConfidence] using h
  have havg0 : 0 ≤ totalConfidence rs / (rs.length : ℚ) := div_nonneg hS0 hn.le
  have hpt : ∀ r ∈ rs,
      (0.3 - 0.3 * (totalConfidence rs / (rs.length : ℚ))) + 0.4 * r.confidence ≤
        r.confidence * 0.7 +
          (1 - |r.confidence - totalConfidence rs / (rs.length : ℚ)|) * 0.3 := by
    intro r hr
    have hc := hconf r hr
    have habs : |r.confidence - totalConfidence rs / (rs.length : ℚ)| ≤
        r.confidence + totalConfidence rs / (rs.length : ℚ) :=
      abs_le.mpr ⟨by linarith [hc.1], by linarith⟩
    linarith
  have hsum := sum_map_le_sum_map rs _ _ hpt
  have haff : (rs.map (fun r =>
      (0.3 - 0.3 * (totalConfidence rs / (rs.length : ℚ))) + 0.4 * r.confidence)).sum =
      (rs.length : ℚ) * (0.3 - 0.3 * (totalConfidence rs / (rs.length : ℚ))) +
        0.4 * totalConfidence rs := by
    have h := sum_map_affine (rs.map (fun r => r.confidence))
      (0.3 - 0.3 * (totalConfidence rs / (rs.length : ℚ))) 0.4
    rw [List.map_map] at h
    simpa [Function.comp_def, totalConfidence] using h
  have hcancel : (rs.length : ℚ) * (totalConfidence rs / (rs.length : ℚ)) =
      totalConfidence rs := by
    field_simp
  have hval : (rs.length : ℚ) * (0.3 - 0.3 * (totalConfidence rs / (rs.length : ℚ))) +
      0.4 * totalConfidence rs =
      0.3 * (rs.length : ℚ) + 0.1 * totalConfidence rs := by
    have hexp : (rs.length : ℚ) * (0.3 - 0.3 * (totalConfidence rs / (rs.length : ℚ))) =
        0.3 * (rs.length : ℚ) -
          0.3 * ((rs.length : ℚ) * (totalConfidence rs / (rs.length : ℚ))) := by
      ring
    rw [hexp, hcancel]
    ring
  rw [haff, hval] at hsum
  have hpos : 0 < 0.3 * (rs.length : ℚ) + 0.1 * totalConfidence rs := by linarith
  linarith

/-- C3 (amended): each weighting strategy — `confidence`, `equal`,
`performance` in the engine's `calculateModelWeights`, and `confidence`,
`equal`, `performance`, `adaptive`, `fastResponse`, `highAccuracy` in the
configuration strategy table — returns a weight vector of the same length as
the non-empty input whose entries sum to exactly 1 (hence within tolerance
1e-6), provided the strategy's divisor is non-degenerate: the
confidence-proportional strategies (engine `confidence`/`performance`, table
`confidence`/`adaptive`) additionally require a positive total confidence and
`fastResponse` requires every processing time to be positive; `equal`,
table `performance` and table `highAccuracy` need no extra hypothesis. -/
theorem weighting_strategies_sum_to_one (rs : List ModelResponse) (hne : rs ≠ [])
    (hconf : ∀ r ∈ rs, 0 ≤ r.confidence ∧ r.confidence ≤ 1) :
    ((calculateModelWeights rs "equal").length = rs.length ∧
      (calculateModelWeights rs "equal").sum = 1) ∧
    ((equalWeighting rs).length = rs.length ∧ (equalWeighting rs).sum = 1) ∧
    ((performanceWeighting rs).length = rs.length ∧
      (performanceWeighting rs).sum = 1) ∧
    ((highAccuracyWeighting rs).length = rs.length ∧
      (highAccuracyWeighting rs).sum = 1) ∧
    (0 < totalConfidence rs →
      ((calculateModelWeights rs "confidence").length = rs.length ∧
        (calculateModelWeights rs "confidence").sum = 1) ∧
      ((calculateModelWeights rs "performance").length = rs.length ∧
        (calculateModelWeights rs "performance").sum = 1) ∧
      ((confidenceWeighting rs).length = rs.length ∧
        (confidenceWeighting rs).sum = 1) ∧
      ((adaptiveWeighting rs).length = rs.length ∧
        (adaptiveWeighting rs).sum = 1)) ∧
    ((∀ r ∈ rs, 0 < r.processingTime) →
      (fastResponseWeighting rs).length = rs.length ∧
        (fastResponseWeighting rs).sum = 1) := by
  have hlen0 : rs.length ≠ 0 := by
    simpa [List.length_eq_zero] using hne
  have hnQ : ((rs.length : ℚ)) ≠ 0 := Nat.cast_ne_zero.mpr hlen0
  have hequal : (calculateModelWeights rs "equal").length = rs.length ∧
      (calculateModelWeights rs "equal").sum = 1 := by
    rw [calculateModelWeights]
    simp only [List.length_replicate, List.sum_replicate, nsmul_eq_mul, one_div,
      String.reduceEq, if_false, reduceIte]
    exact ⟨trivial, mul_inv_cancel₀ hnQ⟩
  have hconfid : 0 < totalConfidence rs →
      (calculateModelWeights rs "confidence").length = rs.length ∧
        (calculateModelWeights rs "confidence").sum = 1 := by
    intro hpos
    rw [calculateModelWeights]
    simp only [reduceIte, List.length_map, true_and]
    rw [sum_map_div_of]
    exact div_self (by simpa [totalConfidence] using hpos.ne')
  refine ⟨hequal, ?_, ?_, ?_, ?_, ?_⟩
  · -- configuration `equal`
    simp only [equalWeighting, List.length_replicate, List.sum_replicate,
      nsmul_eq_mul, one_div]
    exact ⟨trivial, mul_inv_cancel₀ hnQ⟩
  · -- configuration `performance`
    have hposall : ∀ x ∈ rs.map (fun r => performanceScore r.source), 0 < x := by
      intro x hx
      rw [List.mem_map] at hx
      obtain ⟨r, _, rfl⟩ := hx
      unfold performanceScore
      split_ifs <;> norm_num
    have hsum : 0 < (rs.map (fun r => performanceScore r.source)).sum :=
      List.sum_pos _ hposall (by simpa using hne)
    constructor
    · simp [performanceWeighting]
    · simp only [performanceWeighting]
      rw [sum_map_div, div_self hsum.ne']
  · -- configuration `highAccuracy`
    have hsum := highAccuracy_scores_sum_pos rs hne hconf
    constructor
    · simp [highAccuracyWeighting]
    · simp only [highAccuracyWeighting]
      rw [sum_map_div, div_self hsum.ne']
  · -- confidence-proportional strategies, given positive total confidence
    intro hpos
    refine ⟨hconfid hpos, ?_, ?_, ?_⟩
    · have halias : calculateModelWeights rs "performance" =
          calculateModelWeights rs "confidence" := by
        rw [calculateModelWeights]; simp
      rw [halias]
      exact hconfid hpos
    · constructor
      · simp [confidenceWeighting]
      · simp only [confidenceWeighting]
        rw [sum_map_div_of]
        exact div_self (by simpa [totalConfidence] using hpos.ne')
    · constructor
      · simp [adaptiveWeighting]
      · simp only [adaptiveWeighting]
        rw [sum_map_div_of]
        exact div_self (by simpa [totalConfidence] using hpos.ne')
  · -- `fastResponse`, given positive processing times
    intro hpt
    have hposall : ∀ x ∈ rs.map (fun r => 1 / (r.processingTime / 1000)), 0 < x := by
      intro x hx
      rw [List.mem_map] at hx
      obtain ⟨r, hr, rfl⟩ := hx
      have := hpt r hr
      positivity
    have hsum : 0 < (rs.map (fun r => 1 / (r.processingTime / 1000))).sum :=
      List.sum_pos _ hposall (by simpa using hne)
    constructor
    · simp [fastResponseWeighting]
    · simp only [fastResponseWeighting]
      rw [sum_map_div, div_self hsum.ne']

/-- C3 counterexample: for the non-empty response list containing a single
response of confidence 0 (a legal `ModelResponse`, `confidence ∈ [0,1]`), the
engine's `confidence` strategy divides by a total confidence of 0
(`NaN` in JavaScript, `0` in this exact-arithmetic embedding — under both
semantics the weights do not sum to 1.0 within tolerance 1e-6). -/
theorem weighting_zero_confidence_counterexample :
    (calculateModelWeights
        [{ source := "Gemini-2.0-Flash", confidence := 0,
           data := { type := "comprehensive_analysis" }, processingTime := 100 }]
        "confidence").sum = 0 ∧
    ¬ |(calculateModelWeights
          [{ source := "Gemini-2.0-Flash", confidence := 0,
             data := { type := "comprehensive_analysis" }, processingTime := 100 }]
          "confidence").sum - 1| ≤ 1 / 1000000 := by
  have h : calculateModelWeights
      [{ source := "Gemini-2.0-Flash", confidence := 0,
         data := { type := "comprehensive_analysis" }, processingTime := 100 }]
      "confidence" = [0] := by
    rw [calculateModelWeights]
    norm_num [totalConfidence]
  rw [h]
  norm_num

/-- C3 witness: all nine strategy instances evaluated at a concrete two-element
response list with positive total confidence and positive processing times. -/
theorem weighting_strategies_sum_to_one_witness :
    (calculateModelWeights
      [{ source := "Gemini-2.0-Flash", confidence := 0.85,
         data := { type := "comprehensive_analysis" }, processingTime := 1200 },
       { source := "FinBERT", confidence := 0.62,
         data := { type := "financial_sentiment" }, processingTime := 450 }]
      "equal").sum = 1 ∧
    (equalWeighting
      [{ source := "Gemini-2.0-Flash", confidence := 0.85,
         data := { type := "comprehensive_analysis" }, processingTime := 1200 },
       { source := "FinBERT", confidence := 0.62,
         data := { type := "financial_sentiment" }, processingTime := 450 }]).sum = 1 ∧
    (performanceWeighting
      [{ source := "Gemini-2.0-Flash", confidence := 0.85,
         data := { type := "comprehensive_analysis" }, processingTime := 1200 },
       { source := "FinBERT", confidence := 0.62,
         data := { type := "financial_sentiment" }, processingTime := 450 }]).sum = 1 ∧
    (highAccuracyWeighting
      [{ source := "Gemini-2.0-Flash", confidence := 0.85,
         data := { type := "comprehensive_analysis" }, processingTime := 1200 },
       { source := "FinBERT", confidence := 0.62,
         data := { type := "financial_sentiment" }, processingTime := 450 }]).sum = 1 ∧
    (calculateModelWeights
      [{ source := "Gemini-2.0-Flash", confidence := 0.85,
         data := { type := "comprehensive_analysis" }, processingTime := 1200 },
       { source := "FinBERT", confidence := 0.62,
         data := { type := "financial_sentiment" }, processingTime := 450 }]
      "confidence").sum = 1 ∧
    (calculateModelWeights
      [{ source := "Gemini-2.0-Flash", confidence := 0.85,
         data := { type := "comprehensive_analysis" }, processingTime := 1200 },
       { source := "FinBERT", confidence := 0.62,
         data := { type := "financial_sentiment" }, processingTime := 450 }]
      "performance").sum = 1 ∧
    (confidenceWeighting
      [{ source := "Gemini-2.0-Flash", confidence := 0.85,
         data := { type := "comprehensive_analysis" }, processingTime := 1200 },
       { source := "FinBERT", confidence := 0.62,
         data := { type := "financial_sentiment" }, processingTime := 450 }]).sum = 1 ∧
    (adaptiveWeighting
      [{ source := "Gemini-2.0-Flash", confidence := 0.85,
         data := { type := "comprehensive_analysis" }, processingTime := 1200 },
       { source := "FinBERT", confidence := 0.62,
         data := { type := "financial_sentiment" }, processingTime := 450 }]).sum = 1 ∧
    (fastResponseWeighting
      [{ source := "Gemini-2.0-Flash", confidence := 0.85,
         data := { type := "comprehensive_analysis" }, processingTime := 1200 },
       { source := "FinBERT", confidence := 0.62,
         data := { type := "financial_sentiment" }, processingTime := 450 }]).sum = 1 := by
  have H := weighting_strategies_sum_to_one
    [{ source := "Gemini-2.0-Flash", confidence := 0.85,
       data := { type := "comprehensive_analysis" }, processingTime := 1200 },
     { source := "FinBERT", confidence := 0.62,
       data := { type := "financial_sentiment" }, processingTime := 450 }]
    (by simp) (by intro r hr; fin_cases hr <;> norm_num)
  have H5 := H.2.2.2.2.1 (by norm_num [totalConfidence])
  have H6 := H.2.2.2.2.2 (by intro r hr; fin_cases hr <;> norm_num)
  exact ⟨H.1.2, H.2.1.2, H.2.2.1.2, H.2.2.2.1.2, H5.1.2, H5.2.1.2, H5.2.2.1.2,
    H5.2.2.2.2, H6.2⟩

theorem mem_filter_enabled {l : List String} {k : String}
    (h : k ∈ l.filter
      (fun key => ((ensembleModels key).map AIModelConfig.enabled).getD false)) :
    ∃ m, ensembleModels k = some m ∧ m.enabled = true := by
  rw [List.mem_filter] at h
  obtain ⟨-, hp⟩ := h
  cases hm : ensembleModels k with
  | none => rw [hm] at hp; simp at hp
  | some m =>
    rw [hm] at hp
    simp at hp
    exact ⟨m, rfl, hp⟩

/-- C9: for every query analysis, `getOptimalConfiguration` returns an
`enabledModels` list containing only models whose static configuration has
`enabled = true`, and an `expectedCost` equal to the sum of the static
cost-per-request of each model entry of that returned list (in the static
`AI_ENSEMBLE_CONFIG` every model is enabled, so the pre-filter candidate list
the source sums over coincides with the returned filtered list). -/
theorem optimal_configuration_enabled_and_cost (qa : QueryAnalysis) :
    (∀ k ∈ (getOptimalConfiguration qa).enabledModels,
      ∃ m, ensembleModels k = some m ∧ m.enabled = true) ∧
    (getOptimalConfiguration qa).expectedCost =
      (((getOptimalConfiguration qa).enabledModels).map modelCost).sum := by
  constructor
  · intro k hk
    exact mem_filter_enabled hk
  · unfold getOptimalConfiguration
    split_ifs <;> rfl

theorem generateEnsembleResponse_no_success (apiKey q : String)
    (opts : EnsembleOptions) (geminiR finbertR cryptoR newsR techR : AnalyzerOutcome)
    (synthResult : Except String String) (elapsed : ℚ) (hAK : apiKey ≠ "")
    (hempty : fulfilledResponses (dispatched opts geminiR finbertR cryptoR newsR techR) = []) :
    generateEnsembleResponse apiKey q opts geminiR finbertR cryptoR newsR techR
        synthResult elapsed =
      { finalResponse :=
          "I apologize, but I couldn't generate a comprehensive analysis due to technical difficulties. Please try again."
        modelContributions := []
        consensusScore := 0
        totalProcessingTime := elapsed
        methodology := "No models were able to generate a response" } := by
  simp only [generateEnsembleResponse, ensembleBody]
  rw [if_neg hAK, if_pos hempty]

theorem generateEnsembleResponse_success (apiKey q : String)
    (opts : EnsembleOptions) (geminiR finbertR cryptoR newsR techR : AnalyzerOutcome)
    (synthResult : Except String String) (elapsed : ℚ) (hAK : apiKey ≠ "")
    (hne : fulfilledResponses (dispatched opts geminiR finbertR cryptoR newsR techR) ≠ []) :
    generateEnsembleResponse apiKey q opts geminiR finbertR cryptoR newsR techR
        synthResult elapsed =
      { finalResponse :=
          synthesizeResponses
            (fulfilledResponses (dispatched opts geminiR finbertR cryptoR newsR techR))
            q opts.weightingStrategy synthResult
        modelContributions :=
          fulfilledResponses (dispatched opts geminiR finbertR cryptoR newsR techR)
        consensusScore :=
          calculateConsensusScore
            (fulfilledResponses (dispatched opts geminiR finbertR cryptoR newsR techR))
        totalProcessingTime := elapsed
        methodology :=
          explainMethodology
            (fulfilledResponses (dispatched opts geminiR finbertR cryptoR newsR techR))
            opts.weightingStrategy } := by
  simp only [generateEnsembleResponse, ensembleBody]
  rw [if_neg hAK, if_neg hne]

/-- C1: when every dispatched analyzer call rejects, `generateEnsembleResponse`
returns (rather than throwing) the fixed degraded `EnsembleResponse`: empty
`modelContributions`, `consensusScore` 0, the non-empty fixed apology as
`finalResponse`, and a methodology string stating that no model responded. -/
theorem ensemble_total_failure_degraded (apiKey q : String)
    (opts : EnsembleOptions) (geminiR finbertR cryptoR newsR techR : AnalyzerOutcome)
    (synthResult : Except String String) (elapsed : ℚ) (hAK : apiKey ≠ "")
    (hfail : ∀ x ∈ dispatched opts geminiR finbertR cryptoR newsR techR,
      ∃ e, x = Except.error e) :
    generateEnsembleResponse apiKey q opts geminiR finbertR cryptoR newsR techR
        synthResult elapsed =
      { finalResponse :=
          "I apologize, but I couldn't generate a comprehensive analysis due to technical difficulties. Please try again."
        modelContributions := []
        consensusScore := 0
        totalProcessingTime := elapsed
        methodology := "No models were able to generate a response" } ∧
    (generateEnsembleResponse apiKey q opts geminiR finbertR cryptoR newsR techR
        synthResult elapsed).finalResponse ≠ "" := by
  have hempty := fulfilledResponses_eq_nil hfail
  have h := generateEnsembleResponse_no_success apiKey q opts geminiR finbertR
    cryptoR newsR techR synthResult elapsed hAK hempty
  constructor
  · rw [h]
  · rw [h]
    show "I apologize, but I couldn't generate a comprehensive analysis due to technical difficulties. Please try again." ≠ ""
    decide

/-- C1 witness: all five analyzer oracles reject at a concrete call. -/
theorem ensemble_total_failure_degraded_witness :
    generateEnsembleResponse "hf-key" "What is Bitcoin?"
        { useGemini := true, useFinancialBert := true, useCryptoBert := true,
          useNewsAnalysis := true, weightingStrategy := "confidence" }
        (Except.error "Gemini analysis failed")
        (Except.error "FinBERT analysis failed")
        (Except.error "CryptoBERT analysis failed")
        (Except.error "News analysis failed")
        (Except.error "Technical analysis failed")
        (Except.error "synthesis failed") 37 =
      { finalResponse :=
          "I apologize, but I couldn't generate a comprehensive analysis due to technical difficulties. Please try again."
        modelContributions := []
        consensusScore := 0
        totalProcessingTime := 37
        methodology := "No models were able to generate a response" } := by
  have H := ensemble_total_failure_degraded "hf-key" "What is Bitcoin?"
    { useGemini := true, useFinancialBert := true, useCryptoBert := true,
      useNewsAnalysis := true, weightingStrategy := "confidence" }
    (Except.error "Gemini analysis failed")
    (Except.error "FinBERT analysis failed")
    (Except.error "CryptoBERT analysis failed")
    (Except.error "News analysis failed")
    (Except.error "Technical analysis failed")
    (Except.error "synthesis failed") 37 (by decide)
    (by intro x hx; fin_cases hx <;> exact ⟨_, rfl⟩)
  exact H.1

/-- C4: the returned `modelContributions` is exactly the list of fulfilled
analyzer results, in dispatch order: every succeeded analyzer's response is
included (none dropped because a sibling failed) and no rejected analyzer
contributes an entry. -/
theorem ensemble_contributions_exactly_fulfilled (apiKey q : String)
    (opts : EnsembleOptions) (geminiR finbertR cryptoR newsR techR : AnalyzerOutcome)
    (synthResult : Except String String) (elapsed : ℚ) (hAK : apiKey ≠ "") :
    (generateEnsembleResponse apiKey q opts geminiR finbertR cryptoR newsR techR
        synthResult elapsed).modelContributions =
      fulfilledResponses (dispatched opts geminiR finbertR cryptoR newsR techR) ∧
    (∀ r : ModelResponse,
      Except.ok r ∈ dispatched opts geminiR finbertR cryptoR newsR techR →
      r ∈ (generateEnsembleResponse apiKey q opts geminiR finbertR cryptoR newsR
        techR synthResult elapsed).modelContributions) ∧
    (∀ r ∈ (generateEnsembleResponse apiKey q opts geminiR finbertR cryptoR newsR
        techR synthResult elapsed).modelContributions,
      Except.ok r ∈ dispatched opts geminiR finbertR cryptoR newsR techR) := by
  have hmain : (generateEnsembleResponse apiKey q opts geminiR finbertR cryptoR
      newsR techR synthResult elapsed).modelContributions =
      fulfilledResponses (dispatched opts geminiR finbertR cryptoR newsR techR) := by
    by_cases hemp :
        fulfilledResponses (dispatched opts geminiR finbertR cryptoR newsR techR) = []
    · rw [generateEnsembleResponse_no_success apiKey q opts geminiR finbertR
        cryptoR newsR techR synthResult elapsed hAK hemp, hemp]
    · rw [generateEnsembleResponse_success apiKey q opts geminiR finbertR
        cryptoR newsR techR synthResult elapsed hAK hemp]
  refine ⟨hmain, ?_, ?_⟩
  · intro r hr
    rw [hmain]
    exact mem_fulfilledResponses.mpr hr
  · intro r hr
    rw [hmain] at hr
    exact mem_fulfilledResponses.mp hr

/-- C4 witness: three fulfilled and two rejected analyzers at a concrete call;
the contributions are exactly the three fulfilled responses in order. -/
theorem ensemble_contributions_exactly_fulfilled_witness :
    (generateEnsembleResponse "hf-key" "How is the market?"
        { useGemini := true, useFinancialBert := true, useCryptoBert := true,
          useNewsAnalysis := true, weightingStrategy := "confidence" }
        (Except.ok
          { source := "Gemini-2.0-Flash", confidence := 0.85,
            data := { type := "comprehensive_analysis" }, processingTime := 1200 })
        (Except.error "FinBERT analysis failed")
        (Except.ok
          { source := "CryptoBERT", confidence := 0.7,
            data := { type := "crypto_sentiment" }, processingTime := 800 })
        (Except.error "News analysis failed")
        (Except.ok
          { source := "Technical-Analyzer", confidence := 0.75,
            data := { type := "technical_analysis" }, processingTime := 500 })
        (Except.ok "synthesized answer") 2000).modelContributions =
      [{ source := "Gemini-2.0-Flash", confidence := 0.85,
         data := { type := "comprehensive_analysis" }, processingTime := 1200 },
       { source := "CryptoBERT", confidence := 0.7,
         data := { type := "crypto_sentiment" }, processingTime := 800 },
       { source := "Technical-Analyzer", confidence := 0.75,
         data := { type := "technical_analysis" }, processingTime := 500 }] := by
  have H := ensemble_contributions_exactly_fulfilled "hf-key" "How is the market?"
    { useGemini := true, useFinancialBert := true, useCryptoBert := true,
      useNewsAnalysis := true, weightingStrategy := "confidence" }
    (Except.ok
      { source := "Gemini-2.0-Flash", confidence := 0.85,
        data := { type := "comprehensive_analysis" }, processingTime := 1200 })
    (Except.error "FinBERT analysis failed")
    (Except.ok
      { source := "CryptoBERT", confidence := 0.7,
        data := { type := "crypto_sentiment" }, processingTime := 800 })
    (Except.error "News analysis failed")
    (Except.ok
      { source := "Technical-Analyzer", confidence := 0.75,
        data := { type := "technical_analysis" }, processingTime := 500 })
    (Except.ok "synthesized answer") 2000 (by decide)
  rw [H.1]
  rfl

/-- C2: the consensus score of `generateEnsembleResponse` is 0 when zero
analyzers succeeded; exactly 0.5 when exactly one succeeded; and, when two or
more succeeded, equals `max(0.1, min(0.95, 1 − variance(confidences)))` of the
succeeded responses and hence lies in [0.1, 0.95]. -/
theorem ensemble_consensus_score_spec (apiKey q : String)
    (opts : EnsembleOptions) (geminiR finbertR cryptoR newsR techR : AnalyzerOutcome)
    (synthResult : Except String String) (elapsed : ℚ) (hAK : apiKey ≠ "") :
    ((fulfilledResponses (dispatched opts geminiR finbertR cryptoR newsR techR)).length = 0 →
      (generateEnsembleResponse apiKey q opts geminiR finbertR cryptoR newsR techR
        synthResult elapsed).consensusScore = 0) ∧
    ((fulfilledResponses (dispatched opts geminiR finbertR cryptoR newsR techR)).length = 1 →
      (generateEnsembleResponse apiKey q opts geminiR finbertR cryptoR newsR techR
        synthResult elapsed).consensusScore = 0.5) ∧
    (2 ≤ (fulfilledResponses (dispatched opts geminiR finbertR cryptoR newsR techR)).length →
      (generateEnsembleResponse apiKey q opts geminiR finbertR cryptoR newsR techR
          synthResult elapsed).consensusScore =
        max 0.1 (min 0.95 (1 -
          ((fulfilledResponses (dispatched opts geminiR finbertR cryptoR newsR techR)).map
            (fun r => (r.confidence -
              totalConfidence (fulfilledResponses (dispatched opts geminiR finbertR cryptoR newsR techR)) /
                ((fulfilledResponses (dispatched opts geminiR finbertR cryptoR newsR techR)).length : ℚ)) ^ 2)).sum /
            ((fulfilledResponses (dispatched opts geminiR finbertR cryptoR newsR techR)).length : ℚ))) ∧
      0.1 ≤ (generateEnsembleResponse apiKey q opts geminiR finbertR cryptoR newsR
        techR synthResult elapsed).consensusScore ∧
      (generateEnsembleResponse apiKey q opts geminiR finbertR cryptoR newsR techR
        synthResult elapsed).consensusScore ≤ 0.95) := by
  refine ⟨?_, ?_, ?_⟩
  · intro h0
    have hemp : fulfilledResponses (dispatched opts geminiR finbertR cryptoR newsR techR) = [] :=
      List.length_eq_zero.mp h0
    rw [generateEnsembleResponse_no_success apiKey q opts geminiR finbertR cryptoR
      newsR techR synthResult elapsed hAK hemp]
  · intro h1
    have hne : fulfilledResponses (dispatched opts geminiR finbertR cryptoR newsR techR) ≠ [] := by
      intro hcon
      rw [hcon] at h1
      simp at h1
    rw [generateEnsembleResponse_success apiKey q opts geminiR finbertR cryptoR
      newsR techR synthResult elapsed hAK hne]
    show calculateConsensusScore _ = 0.5
    rw [calculateConsensusScore, if_pos (by omega)]
  · intro h2
    have hne : fulfilledResponses (dispatched opts geminiR finbertR cryptoR newsR techR) ≠ [] := by
      intro hcon
      rw [hcon] at h2
      simp at h2
    rw [generateEnsembleResponse_success apiKey q opts geminiR finbertR cryptoR
      newsR techR synthResult elapsed hAK hne]
    show calculateConsensusScore _ =
        max 0.1 (min 0.95 _) ∧ 0.1 ≤ calculateConsensusScore _ ∧
          calculateConsensusScore _ ≤ 0.95
    rw [calculateConsensusScore, if_neg (by omega)]
    refine ⟨rfl, le_max_left _ _, max_le (by norm_num) (min_le_left _ _)⟩

/-- C2 witness: the three regimes at concrete calls — zero fulfilled analyzers
give score 0, exactly one gives exactly 0.5, and four give a score inside
[0.1, 0.95]. -/
theorem ensemble_consensus_score_spec_witness :
    (generateEnsembleResponse "hf-key" "q"
        { useGemini := true, useFinancialBert := true, useCryptoBert := true,
          useNewsAnalysis := true, weightingStrategy := "confidence" }
        (Except.error "g") (Except.error "f") (Except.error "c")
        (Except.error "n") (Except.error "t") (Except.error "s")
        11).consensusScore = 0 ∧
    (generateEnsembleResponse "hf-key" "q"
        { useGemini := false, useFinancialBert := false, useCryptoBert := false,
          useNewsAnalysis := false, weightingStrategy := "confidence" }
        (Except.error "g") (Except.error "f") (Except.error "c")
        (Except.error "n")
        (Except.ok
          { source := "Technical-Analyzer", confidence := 0.75,
            data := { type := "technical_analysis" }, processingTime := 500 })
        (Except.ok "answer") 11).consensusScore = 0.5 ∧
    (0.1 ≤ (generateEnsembleResponse "hf-key" "q"
        { useGemini := true, useFinancialBert := true, useCryptoBert := true,
          useNewsAnalysis := true, weightingStrategy := "confidence" }
        (Except.ok
          { source := "Gemini-2.0-Flash", confidence := 0.9,
            data := { type := "comprehensive_analysis" }, processingTime := 1200 })
        (Except.ok
          { source := "FinBERT", confidence := 0.7,
            data := { type := "financial_sentiment" }, processingTime := 700 })
        (Except.error "CryptoBERT analysis failed")
        (Except.ok
          { source := "News-RoBERTa", confidence := 0.8,
            data := { type := "news_analysis" }, processingTime := 650 })
        (Except.ok
          { source := "Technical-Analyzer", confidence := 0.6,
            data := { type := "technical_analysis" }, processingTime := 500 })
        (Except.ok "answer") 11).consensusScore ∧
      (generateEnsembleResponse "hf-key" "q"
        { useGemini := true, useFinancialBert := true, useCryptoBert := true,
          useNewsAnalysis := true, weightingStrategy := "confidence" }
        (Except.ok
          { source := "Gemini-2.0-Flash", confidence := 0.9,
            data := { type := "comprehensive_analysis" }, processingTime := 1200 })
        (Except.ok
          { source := "FinBERT", confidence := 0.7,
            data := { type := "financial_sentiment" }, processingTime := 700 })
        (Except.error "CryptoBERT analysis failed")
        (Except.ok
          { source := "News-RoBERTa", confidence := 0.8,
            data := { type := "news_analysis" }, processingTime := 650 })
        (Except.ok
          { source := "Technical-Analyzer", confidence := 0.6,
            data := { type := "technical_analysis" }, processingTime := 500 })
        (Except.ok "answer") 11).consensusScore ≤ 0.95) := by
  refine ⟨?_, ?_, ?_⟩
  · exact (ensemble_consensus_score_spec "hf-key" "q"
      { useGemini := true, useFinancialBert := true, useCryptoBert := true,
        useNewsAnalysis := true, weightingStrategy := "confidence" }
      (Except.error "g") (Except.error "f") (Except.error "c")
      (Except.error "n") (Except.error "t") (Except.error "s")
      11 (by decide)).1 (by decide)
  · exact (ensemble_consensus_score_spec "hf-key" "q"
      { useGemini := false, useFinancialBert := false, useCryptoBert := false,
        useNewsAnalysis := false, weightingStrategy := "confidence" }
      (Except.error "g") (Except.error "f") (Except.error "c")
      (Except.error "n")
      (Except.ok
        { source := "Technical-Analyzer", confidence := 0.75,
          data := { type := "technical_analysis" }, processingTime := 500 })
      (Except.ok "answer") 11 (by decide)).2.1 (by decide)
  · exact ((ensemble_consensus_score_spec "hf-key" "q"
      { useGemini := true, useFinancialBert := true, useCryptoBert := true,
        useNewsAnalysis := true, weightingStrategy := "confidence" }
      (Except.ok
        { source := "Gemini-2.0-Flash", confidence := 0.9,
          data := { type := "comprehensive_analysis" }, processingTime := 1200 })
      (Except.ok
        { source := "FinBERT", confidence := 0.7,
          data := { type := "financial_sentiment" }, processingTime := 700 })
      (Except.error "CryptoBERT analysis failed")
      (Except.ok
        { source := "News-RoBERTa", confidence := 0.8,
          data := { type := "news_analysis" }, processingTime := 650 })
      (Except.ok
        { source := "Technical-Analyzer", confidence := 0.6,
          data := { type := "technical_analysis" }, processingTime := 500 })
      (Except.ok "answer") 11 (by decide)).2.2 (by decide)).2

/-- C5 (amended): when the HuggingFace API key is missing,
`generateEnsembleResponse` raises the configuration error inside its `try`
body but the enclosing `catch` swallows it; the call returns (never throws) a
degraded `EnsembleResponse` embedding the configuration error message, with
empty contributions and consensus score 0. -/
theorem ensemble_missing_key_returns_degraded (q : String) (opts : EnsembleOptions)
    (geminiR finbertR cryptoR newsR techR : AnalyzerOutcome)
    (synthResult : Except String String) (elapsed : ℚ) :
    ensembleBody "" q opts geminiR finbertR cryptoR newsR techR synthResult
        elapsed =
      Except.error "HUGGINGFACE_API_KEY is not configured" ∧
    generateEnsembleResponse "" q opts geminiR finbertR cryptoR newsR techR
        synthResult elapsed =
      { finalResponse :=
          "Analysis failed: HUGGINGFACE_API_KEY is not configured. Please try again."
        modelContributions := []
        consensusScore := 0
        totalProcessingTime := elapsed
        methodology := "Analysis failed due to technical error" } :=
  ⟨rfl, rfl⟩

/-- C5 counterexample: at a concrete call with the API key unset, the
configuration error is raised inside the `try` body (first conjunct) yet the
call still returns a normal — degraded — `EnsembleResponse` (second
conjunct), contradicting the claim that the error is surfaced to the caller
as a thrown/rejected error rather than a returned response. -/
theorem ensemble_missing_key_not_thrown_counterexample :
    ensembleBody "" "What is Bitcoin?"
        { useGemini := true, useFinancialBert := true, useCryptoBert := true,
          useNewsAnalysis := true, weightingStrategy := "confidence" }
        (Except.error "g") (Except.error "f") (Except.error "c")
        (Except.error "n") (Except.error "t") (Except.error "s") 42 =
      Except.error "HUGGINGFACE_API_KEY is not configured" ∧
    generateEnsembleResponse "" "What is Bitcoin?"
        { useGemini := true, useFinancialBert := true, useCryptoBert := true,
          useNewsAnalysis := true, weightingStrategy := "confidence" }
        (Except.error "g") (Except.error "f") (Except.error "c")
        (Except.error "n") (Except.error "t") (Except.error "s") 42 =
      { finalResponse :=
          "Analysis failed: HUGGINGFACE_API_KEY is not configured. Please try again."
        modelContributions := []
        consensusScore := 0
        totalProcessingTime := 42
        methodology := "Analysis failed due to technical error" } :=
  ⟨rfl, rfl⟩

theorem primary_line_split (x : String) :
    "Primary Analysis (" ++ x ++ "):\n" =
      "" ++ ("Primary Analysis (" ++ x ++ "):") ++ "\n" := by
  apply String.ext
  simp [String.data_append]

theorem fallbackSynthesis_contains_sources (r0 : ModelResponse)
    (rest : List ModelResponse) (q : String) :
    ∀ r ∈ r0 :: rest, ContainsStr (fallbackSynthesis (r0 :: rest) q) r.source := by
  intro r hr
  simp only [fallbackSynthesis]
  apply containsStr_append_right
  apply containsStr_append_left
  apply containsStr_append_left
  exact containsStr_joinSep (List.mem_map_of_mem _ hr) ", "

theorem fallbackSynthesis_ne_empty (r0 : ModelResponse)
    (rest : List ModelResponse) (q : String) :
    fallbackSynthesis (r0 :: rest) q ≠ "" := by
  have h : ContainsStr (fallbackSynthesis (r0 :: rest) q)
      "Based on multi-model AI analysis:\n\n" := by
    simp only [fallbackSynthesis]
    apply containsStr_append_right
    apply containsStr_append_right
    apply containsStr_append_right
    apply containsStr_append_right
    apply containsStr_append_right
    apply containsStr_append_right
    exact containsStr_refl _
  exact containsStr_ne_empty h (by decide)

theorem fallbackSynthesis_primary_announced (r0 : ModelResponse)
    (rest : List ModelResponse) (q : String) (p : ModelResponse)
    (hp : fallbackPrimary (r0 :: rest) = some p) :
    ContainsStr (fallbackSynthesis (r0 :: rest) q)
      ("Primary Analysis (" ++ p.source ++ "):") := by
  simp only [fallbackSynthesis, hp, Option.getD_some]
  apply containsStr_append_right
  apply containsStr_append_right
  apply containsStr_append_right
  apply containsStr_append_right
  apply containsStr_append_right
  apply containsStr_append_left
  exact ⟨"", "\n", primary_line_split p.source⟩

/-- C6 (amended): when at least one analyzer succeeded and the synthesis call
to the primary LLM rejects, `generateEnsembleResponse` returns the
deterministic local fallback synthesis of the succeeded responses: a
non-empty `finalResponse` whose primary section is the *first* contributing
response with confidence above 0.7 (or the first contributing response if
none exceeds 0.7) — not necessarily the highest-confidence one — and which
contains every contributing model's source name, in particular the top
(highest-confidence) contributing model's source name. -/
theorem ensemble_synthesis_failure_fallback (apiKey q : String)
    (opts : EnsembleOptions) (geminiR finbertR cryptoR newsR techR : AnalyzerOutcome)
    (e : String) (elapsed : ℚ) (hAK : apiKey ≠ "")
    (hne : fulfilledResponses (dispatched opts geminiR finbertR cryptoR newsR techR) ≠ []) :
    (generateEnsembleResponse apiKey q opts geminiR finbertR cryptoR newsR techR
        (Except.error e) elapsed).finalResponse =
      fallbackSynthesis
        (fulfilledResponses (dispatched opts geminiR finbertR cryptoR newsR techR)) q ∧
    (generateEnsembleResponse apiKey q opts geminiR finbertR cryptoR newsR techR
        (Except.error e) elapsed).finalResponse ≠ "" ∧
    (∀ p, fallbackPrimary
        (fulfilledResponses (dispatched opts geminiR finbertR cryptoR newsR techR)) =
        some p →
      ContainsStr
        (generateEnsembleResponse apiKey q opts geminiR finbertR cryptoR newsR techR
          (Except.error e) elapsed).finalResponse
        ("Primary Analysis (" ++ p.source ++ "):")) ∧
    (∀ r ∈ fulfilledResponses (dispatched opts geminiR finbertR cryptoR newsR techR),
      ContainsStr
        (generateEnsembleResponse apiKey q opts geminiR finbertR cryptoR newsR techR
          (Except.error e) elapsed).finalResponse r.source) ∧
    (∀ top ∈ fulfilledResponses (dispatched opts geminiR finbertR cryptoR newsR techR),
      (∀ r ∈ fulfilledResponses (dispatched opts geminiR finbertR cryptoR newsR techR),
        r.confidence ≤ top.confidence) →
      ContainsStr
        (generateEnsembleResponse apiKey q opts geminiR finbertR cryptoR newsR techR
          (Except.error e) elapsed).finalResponse top.source) := by
  obtain ⟨r0, rest, hsq⟩ := List.exists_cons_of_ne_nil hne
  have hgen := generateEnsembleResponse_success apiKey q opts geminiR finbertR
    cryptoR newsR techR (Except.error e) elapsed hAK hne
  have hfr : (generateEnsembleResponse apiKey q opts geminiR finbertR cryptoR
      newsR techR (Except.error e) elapsed).finalResponse =
      fallbackSynthesis (r0 :: rest) q := by
    rw [hgen]
    show synthesizeResponses
        (fulfilledResponses (dispatched opts geminiR finbertR cryptoR newsR techR))
        q opts.weightingStrategy (Except.error e) =
      fallbackSynthesis (r0 :: rest) q
    rw [hsq, synthesizeResponses, if_neg (by simp)]
  refine ⟨?_, ?_, ?_, ?_, ?_⟩
  · rw [hfr, hsq]
  · rw [hfr]
    exact fallbackSynthesis_ne_empty r0 rest q
  · intro p hp
    rw [hfr]
    rw [hsq] at hp
    exact fallbackSynthesis_primary_announced r0 rest q p hp
  · intro r hr
    rw [hfr]
    rw [hsq] at hr
    exact fallbackSynthesis_contains_sources r0 rest q r hr
  · intro top htop _
    rw [hfr]
    rw [hsq] at htop
    exact fallbackSynthesis_contains_sources r0 rest q top htop

/-- C6 counterexample: with contributing responses
`[Technical-Analyzer (confidence 0.75), Gemini-2.0-Flash (confidence 0.9)]`
the fallback synthesis picks `Technical-Analyzer` — the *first* response
whose confidence exceeds 0.7 — as the primary section, even though
`Gemini-2.0-Flash` is a contributing response with strictly greater
confidence; so the primary section is not the highest-confidence
contributing response. -/
theorem fallback_primary_not_highest_counterexample :
    fallbackPrimary
        [{ source := "Technical-Analyzer", confidence := 0.75,
           data := { type := "technical_analysis" }, processingTime := 500 },
         { source := "Gemini-2.0-Flash", confidence := 0.9,
           data := { type := "comprehensive_analysis" }, processingTime := 1200 }] =
      some { source := "Technical-Analyzer", confidence := 0.75,
             data := { type := "technical_analysis" }, processingTime := 500 } ∧
    ({ source := "Technical-Analyzer", confidence := 0.75,
       data := { type := "technical_analysis" }, processingTime := 500 } :
        ModelResponse).confidence <
      ({ source := "Gemini-2.0-Flash", confidence := 0.9,
         data := { type := "comprehensive_analysis" }, processingTime := 1200 } :
        ModelResponse).confidence ∧
    ({ source := "Gemini-2.0-Flash", confidence := 0.9,
       data := { type := "comprehensive_analysis" }, processingTime := 1200 } :
        ModelResponse) ∈
      [{ source := "Technical-Analyzer", confidence := 0.75,
         data := { type := "technical_analysis" }, processingTime := 500 },
       { source := "Gemini-2.0-Flash", confidence := 0.9,
         data := { type := "comprehensive_analysis" }, processingTime := 1200 }] ∧
    ("Technical-Analyzer" : String) ≠ "Gemini-2.0-Flash" := by
  have h1 : (0.7 : ℚ) < 0.75 := by norm_num
  have h2 : (0.7 : ℚ) < 0.9 := by norm_num
  refine ⟨?_, by norm_num, by simp, by decide⟩
  simp [fallbackPrimary, List.filter, h1, h2]

/-- C6 witness: a concrete call with two fulfilled analyzers and a rejected
synthesis backend; the final response is the local fallback synthesis, is
non-empty, and contains the top contributing model's source name. -/
theorem ensemble_synthesis_failure_fallback_witness :
    (generateEnsembleResponse "hf-key" "q"
        { useGemini := true, useFinancialBert := true, useCryptoBert := true,
          useNewsAnalysis := true, weightingStrategy := "confidence" }
        (Except.ok
          { source := "Gemini-2.0-Flash", confidence := 0.9,
            data := { type := "comprehensive_analysis" }, processingTime := 1200 })
        (Except.error "FinBERT analysis failed")
        (Except.error "CryptoBERT analysis failed")
        (Except.error "News analysis failed")
        (Except.ok
          { source := "Technical-Analyzer", confidence := 0.6,
            data := { type := "technical_analysis" }, processingTime := 500 })
        (Except.error "synthesis failed") 9).finalResponse =
      fallbackSynthesis
        [{ source := "Gemini-2.0-Flash", confidence := 0.9,
           data := { type := "comprehensive_analysis" }, processingTime := 1200 },
         { source := "Technical-Analyzer", confidence := 0.6,
           data := { type := "technical_analysis" }, processingTime := 500 }] "q" ∧
    (generateEnsembleResponse "hf-key" "q"
        { useGemini := true, useFinancialBert := true, useCryptoBert := true,
          useNewsAnalysis := true, weightingStrategy := "confidence" }
        (Except.ok
          { source := "Gemini-2.0-Flash", confidence := 0.9,
            data := { type := "comprehensive_analysis" }, processingTime := 1200 })
        (Except.error "FinBERT analysis failed")
        (Except.error "CryptoBERT analysis failed")
        (Except.error "News analysis failed")
        (Except.ok
          { source := "Technical-Analyzer", confidence := 0.6,
            data := { type := "technical_analysis" }, processingTime := 500 })
        (Except.error "synthesis failed") 9).finalResponse ≠ "" ∧
    ContainsStr
      (generateEnsembleResponse "hf-key" "q"
        { useGemini := true, useFinancialBert := true, useCryptoBert := true,
          useNewsAnalysis := true, weightingStrategy := "confidence" }
        (Except.ok
          { source := "Gemini-2.0-Flash", confidence := 0.9,
            data := { type := "comprehensive_analysis" }, processingTime := 1200 })
        (Except.error "FinBERT analysis failed")
        (Except.error "CryptoBERT analysis failed")
        (Except.error "News analysis failed")
        (Except.ok
          { source := "Technical-Analyzer", confidence := 0.6,
            data := { type := "technical_analysis" }, processingTime := 500 })
        (Except.error "synthesis failed") 9).finalResponse
      "Gemini-2.0-Flash" := by
  have H := ensemble_synthesis_failure_fallback "hf-key" "q"
    { useGemini := true, useFinancialBert := true, useCryptoBert := true,
      useNewsAnalysis := true, weightingStrategy := "confidence" }
    (Except.ok
      { source := "Gemini-2.0-Flash", confidence := 0.9,
        data := { type := "comprehensive_analysis" }, processingTime := 1200 })
    (Except.error "FinBERT analysis failed")
    (Except.error "CryptoBERT analysis failed")
    (Except.error "News analysis failed")
    (Except.ok
      { source := "Technical-Analyzer", confidence := 0.6,
        data := { type := "technical_analysis" }, processingTime := 500 })
    "synthesis failed" 9 (by decide) (by decide)
  exact ⟨H.1, H.2.1,
    H.2.2.2.1
      { source := "Gemini-2.0-Flash", confidence := 0.9,
        data := { type := "comprehensive_analysis" }, processingTime := 1200 }
      (List.mem_cons_self _ _)⟩

/-- C9 witness: the enabled-flag lookup discharged at the concrete key
`finbert` of a concrete sentiment+technical query analysis, together with the
cost equation at that query analysis. -/
theorem optimal_configuration_enabled_and_cost_witness :
    (∃ m, ensembleModels "finbert" = some m ∧ m.enabled = true) ∧
    (getOptimalConfiguration
        { isTechnicalQuery := true, isSentimentQuery := true,
          isEducationalQuery := false, complexity := "medium",
          urgency := "normal" }).expectedCost =
      (((getOptimalConfiguration
          { isTechnicalQuery := true, isSentimentQuery := true,
            isEducationalQuery := false, complexity := "medium",
            urgency := "normal" }).enabledModels).map modelCost).sum := by
  have H := optimal_configuration_enabled_and_cost
    { isTechnicalQuery := true, isSentimentQuery := true,
      isEducationalQuery := false, complexity := "medium", urgency := "normal" }
  exact ⟨H.1 "finbert" (by decide), H.2⟩
